import Mathlib

/-!
Verification of `wagtail/admin/wagtail_hooks.py`.

The file under verification is registration glue: it registers admin menu
items, page-listing buttons, icons, rich-text editor features and audit-log
message formatters into the host framework hook registry.  We embed the
data registered by each hook and the small pieces of logic (permission
conditioned button generators, audit-log message formatters, the query
string helper) as Lean definitions and prove the specified properties.
-/

namespace WagtailAdminHooks

/-! ### Python-style structured event data

Audit-log formatters receive a structured event-data mapping (a Python
dict possibly holding nested dicts, strings, numbers, booleans and None).
Subscripting a dict with a missing key raises KeyError; subscripting a
non-dict value (None, a string, a number, a boolean) with a string key
raises TypeError.  We model both error kinds explicitly. -/
inductive PyErr where
  | keyError
  | typeError
deriving DecidableEq, Repr

inductive LogData where
  | str (s : String)
  | num (n : Int)
  | bool (b : Bool)
  | null
  | obj (fields : List (String × LogData))
deriving Repr

/-- First-match association lookup over the fields of a dict literal. -/
def lookupField : List (String × LogData) → String → Option LogData
  | [], _ => none
  | (k, v) :: rest, key => if k = key then some v else lookupField rest key

/-- Python subscript `d[key]` with a string key: a dict yields the value or
raises KeyError when the key is absent; every non-dict value raises
TypeError. -/
def LogData.get : LogData → String → Except PyErr LogData
  | .obj fs, key =>
    match lookupField fs key with
    | some v => .ok v
    | none => .error .keyError
  | .str _, _ => .error .typeError
  | .num _, _ => .error .typeError
  | .bool _, _ => .error .typeError
  | .null, _ => .error .typeError

mutual

/-- Python `str()` of an event-data value, as interpolated by
`format_lazy`. -/
def LogData.toStr : LogData → String
  | .str s => s
  | .num n => toString n
  | .bool b => if b then "True" else "False"
  | .null => "None"
  | .obj fs => "\x7b" ++ String.intercalate ", " (LogData.fieldStrs fs) ++ "\x7d"

/-- Python `repr()` of an event-data value (used for values nested inside a
dict rendering). -/
def LogData.reprStr : LogData → String
  | .str s => "\x27" ++ s ++ "\x27"
  | .num n => toString n
  | .bool b => if b then "True" else "False"
  | .null => "None"
  | .obj fs => "\x7b" ++ String.intercalate ", " (LogData.fieldStrs fs) ++ "\x7d"

/-- Rendered `key: repr(value)` pairs of a dict. -/
def LogData.fieldStrs : List (String × LogData) → List String
  | [] => []
  | (k, v) :: rest => ("\x27" ++ k ++ "\x27: " ++ LogData.reprStr v) :: LogData.fieldStrs rest

end

/-- Python truthiness of an event-data value. -/
def LogData.truthy : LogData → Bool
  | .str s => !s.isEmpty
  | .num n => n != 0
  | .bool b => b
  | .null => false
  | .obj fs => !fs.isEmpty

/-! ### `append_querystring`

Source:
`def append_querystring(path, querystring=None): return '%s%s' % (path, '?%s' % querystring if querystring else '')`.
The querystring is either absent (None) or a string; None and the empty
string are falsy. -/
/-- Python truthiness of an optional string. -/
def pyTruthyOptStr : Option String → Bool
  | none => false
  | some s => !s.isEmpty

def append_querystring (path : String) (querystring : Option String := none) : String :=
  path ++ (if pyTruthyOptStr querystring
           then "?" ++ (match querystring with | some q => q | none => "None")
           else "")

/-! ### Audit-log message formatters

Each formatter is a Python function `data -> message` whose body is a
`try` block reading keys from the event data and interpolating them into
a translated template with `format_lazy`; the `except` clause of the nine
core formatters catches `KeyError` only, while the three workflow
formatters catch `(KeyError, TypeError)`.  We embed the `try` body as an
`Except PyErr String` computation (the `_try` definitions), reading keys
in Python left-to-right evaluation order, and the handler as a catch
combinator. -/
/-- The `except KeyError` clause: a KeyError is replaced by the generic
label, everything else (a successful message or a TypeError) passes
through. -/
def catchKeyError (generic : String) : Except PyErr String → Except PyErr String
  | .error .keyError => .ok generic
  | r => r

/-- The `except (KeyError, TypeError)` clause of the workflow formatters:
any error is replaced by the generic label. -/
def catchKeyOrTypeError (generic : String) : Except PyErr String → Except PyErr String
  | .error _ => .ok generic
  | r => r

def revertDetail (rid created : String) : String :=
  "Reverted to previous revision with id " ++ rid ++ " from " ++ created

def revert_message_try (data : LogData) : Except PyErr String := do
  let rid ← (← data.get "revision").get "id"
  let created ← (← data.get "revision").get "created"
  pure (revertDetail rid.toStr created.toStr)

def revert_message (data : LogData) : Except PyErr String :=
  catchKeyError "Reverted to previous revision" (revert_message_try data)

def scheduleRevertDetail (rid created goLive : String) : String :=
  "Scheduled revision " ++ rid ++ " from " ++ created ++ " for publishing at " ++ goLive ++ "."

def schedule_revert_message_try (data : LogData) : Except PyErr String := do
  let rid ← (← data.get "revision").get "id"
  let created ← (← data.get "revision").get "created"
  let goLive ← (← data.get "revision").get "go_live_at"
  pure (scheduleRevertDetail rid.toStr created.toStr goLive.toStr)

def schedule_revert_message (data : LogData) : Except PyErr String :=
  catchKeyError "Revision scheduled for publishing" (schedule_revert_message_try data)

def copyDetail (title : String) : String :=
  "Copied from " ++ title

def copy_message_try (data : LogData) : Except PyErr String := do
  let title ← (← data.get "source").get "title"
  pure (copyDetail title.toStr)

def copy_message (data : LogData) : Except PyErr String :=
  catchKeyError "Copied" (copy_message_try data)

def moveDetail (oldParent newParent : String) : String :=
  "Moved from \x27" ++ oldParent ++ "\x27 to \x27" ++ newParent ++ "\x27"

def move_message_try (data : LogData) : Except PyErr String := do
  let oldParent ← (← data.get "source").get "title"
  let newParent ← (← data.get "destination").get "title"
  pure (moveDetail oldParent.toStr newParent.toStr)

def move_message (data : LogData) : Except PyErr String :=
  catchKeyError "Moved" (move_message_try data)

def schedulePublishDetailLive (rid created goLive : String) : String :=
  "Revision " ++ rid ++ " from " ++ created ++ " scheduled for publishing at " ++ goLive ++ "."

def schedulePublishDetailNew (goLive : String) : String :=
  "Page scheduled for publishing at " ++ goLive

def schedule_publish_message_try (data : LogData) : Except PyErr String := do
  let hasLive ← (← data.get "revision").get "has_live_version"
  if hasLive.truthy then
    let rid ← (← data.get "revision").get "id"
    let created ← (← data.get "revision").get "created"
    let goLive ← (← data.get "revision").get "go_live_at"
    pure (schedulePublishDetailLive rid.toStr created.toStr goLive.toStr)
  else
    let goLive ← (← data.get "revision").get "go_live_at"
    pure (schedulePublishDetailNew goLive.toStr)

def schedule_publish_message (data : LogData) : Except PyErr String :=
  catchKeyError "Page scheduled for publishing" (schedule_publish_message_try data)

def unschedulePublishDetailLive (rid created goLive : String) : String :=
  "Revision " ++ rid ++ " from " ++ created ++ " unscheduled from publishing at " ++ goLive ++ "."

def unschedulePublishDetailNew (goLive : String) : String :=
  "Page unscheduled for publishing at " ++ goLive

def unschedule_publish_message_try (data : LogData) : Except PyErr String := do
  let hasLive ← (← data.get "revision").get "has_live_version"
  if hasLive.truthy then
    let rid ← (← data.get "revision").get "id"
    let created ← (← data.get "revision").get "created"
    let goLive ← (← data.get "revision").get "go_live_at"
    pure (unschedulePublishDetailLive rid.toStr created.toStr goLive.toStr)
  else
    let goLive ← (← data.get "revision").get "go_live_at"
    pure (unschedulePublishDetailNew goLive.toStr)

def unschedule_publish_message (data : LogData) : Except PyErr String :=
  catchKeyError "Page unscheduled from publishing" (unschedule_publish_message_try data)

def addViewRestrictionDetail (restriction : String) : String :=
  "Added the \x27" ++ restriction ++ "\x27 view restriction"

def add_view_restriction_try (data : LogData) : Except PyErr String := do
  let restriction ← (← data.get "restriction").get "title"
  pure (addViewRestrictionDetail restriction.toStr)

def add_view_restriction (data : LogData) : Except PyErr String :=
  catchKeyError "Added view restriction" (add_view_restriction_try data)

def editViewRestrictionDetail (restriction : String) : String :=
  "Updated the view restriction to \x27" ++ restriction ++ "\x27"

def edit_view_restriction_try (data : LogData) : Except PyErr String := do
  let restriction ← (← data.get "restriction").get "title"
  pure (editViewRestrictionDetail restriction.toStr)

def edit_view_restriction (data : LogData) : Except PyErr String :=
  catchKeyError "Updated view restriction" (edit_view_restriction_try data)

def deleteViewRestrictionDetail (restriction : String) : String :=
  "Removed the view restriction to \x27" ++ restriction ++ "\x27"

def delete_view_restriction_try (data : LogData) : Except PyErr String := do
  let restriction ← (← data.get "restriction").get "title"
  pure (deleteViewRestrictionDetail restriction.toStr)

def delete_view_restriction (data : LogData) : Except PyErr String :=
  catchKeyError "Removed view restriction" (delete_view_restriction_try data)

def workflowStartDetail (workflow task : String) : String :=
  "\x27" ++ workflow ++ "\x27 started. Next step \x27" ++ task ++ "\x27"

def workflow_start_message_try (data : LogData) : Except PyErr String := do
  let workflow ← (← data.get "workflow").get "title"
  let task ← (← (← data.get "workflow").get "next").get "title"
  pure (workflowStartDetail workflow.toStr task.toStr)

def workflow_start_message (data : LogData) : Except PyErr String :=
  catchKeyOrTypeError "Workflow started" (workflow_start_message_try data)

def workflowApproveDetailNext (task nextTask : String) : String :=
  "Approved at \x27" ++ task ++ "\x27. Next step \x27" ++ nextTask ++ "\x27"

def workflowApproveDetailDone (task workflow : String) : String :=
  "Approved at \x27" ++ task ++ "\x27. \x27" ++ workflow ++ "\x27 complete"

def workflow_approve_message_try (data : LogData) : Except PyErr String := do
  let next ← (← data.get "workflow").get "next"
  if next.truthy then
    let task ← (← (← data.get "workflow").get "task").get "title"
    let nextTask ← (← (← data.get "workflow").get "next").get "title"
    pure (workflowApproveDetailNext task.toStr nextTask.toStr)
  else
    let task ← (← (← data.get "workflow").get "task").get "title"
    let workflow ← (← data.get "workflow").get "title"
    pure (workflowApproveDetailDone task.toStr workflow.toStr)

def workflow_approve_message (data : LogData) : Except PyErr String :=
  catchKeyOrTypeError "Workflow task approved" (workflow_approve_message_try data)

def workflowRejectDetail (task : String) : String :=
  "Rejected at \x27" ++ task ++ "\x27. Workflow complete"

def workflow_reject_message_try (data : LogData) : Except PyErr String := do
  let task ← (← (← data.get "workflow").get "task").get "title"
  pure (workflowRejectDetail task.toStr)

def workflow_reject_message (data : LogData) : Except PyErr String :=
  catchKeyOrTypeError "Workflow task rejected. Workflow complete" (workflow_reject_message_try data)

/-! ### Page listing buttons

`page_listing_buttons` and `page_listing_more_buttons` are generators
yielding button objects conditionally on the page state and the
permission proxy; we embed each as the list of buttons yielded, in yield
order.  The external pieces (the permission proxy methods, the URL
reversal service) are modelled as boolean fields of the state and an
abstract string-producing function. -/
/-- The page row being rendered; `admin_display_title` stands for
`get_admin_display_title()`, `is_previewable` for `is_previewable()`,
`url` for the page url attribute (None or a string). -/
structure Page where
  id : Nat
  admin_display_title : String
  has_unpublished_changes : Bool
  is_previewable : Bool
  live : Bool
  url : Option String
deriving DecidableEq, Repr

/-- Results of the capability checks of the `page_perms` permission
proxy.  Modelled from the spec: the permission policy implementation is
external to this file; each check is an opaque boolean. -/
structure PagePerms where
  can_edit : Bool
  can_add_subpage : Bool
  can_move : Bool
  can_copy : Bool
  can_delete : Bool
  can_unpublish : Bool
  can_view_revisions : Bool
deriving DecidableEq, Repr

/-- Which widget class the button was built with. -/
inductive WButtonKind where
  | pageListing
  | plain
  | dropdownFromHook (hook_name : String)
deriving DecidableEq, Repr

structure WButton where
  label : String
  url : String
  attrs : List (String × String)
  classes : List String
  priority : Nat
  kind : WButtonKind
deriving DecidableEq, Repr

/-- Modelled from the spec: the URL-reversal service (`reverse`) is
external to this file; any injective-in-name encoding serves, since no
claim depends on the concrete URL text. -/
def reverse (name : String) (args : List Nat) : String :=
  String.intercalate "/" (name :: args.map toString)

def editButton (page : Page) : WButton :=
  { label := "Edit"
    url := reverse "wagtailadmin_pages:edit" [page.id]
    attrs := [("aria-label", "Edit \x27" ++ page.admin_display_title ++ "\x27")]
    classes := []
    priority := 10
    kind := .pageListing }

def viewDraftButton (page : Page) : WButton :=
  { label := "View draft"
    url := reverse "wagtailadmin_pages:view_draft" [page.id]
    attrs := [("aria-label", "Preview draft version of \x27" ++ page.admin_display_title ++ "\x27"),
              ("target", "_blank"), ("rel", "noopener noreferrer")]
    classes := []
    priority := 20
    kind := .pageListing }

def viewLiveButton (page : Page) : WButton :=
  { label := "View live"
    url := page.url.getD ""
    attrs := [("target", "_blank"), ("rel", "noopener noreferrer"),
              ("aria-label", "View live version of \x27" ++ page.admin_display_title ++ "\x27")]
    classes := []
    priority := 30
    kind := .pageListing }

def addChildPageParentButton (page : Page) : WButton :=
  { label := "Add child page"
    url := reverse "wagtailadmin_pages:add_subpage" [page.id]
    attrs := [("aria-label", "Add a child page to \x27" ++ page.admin_display_title ++ "\x27 ")]
    classes := ["button", "button-small", "bicolor", "icon", "white", "icon-plus"]
    priority := 40
    kind := .plain }

def addChildPageButton (page : Page) : WButton :=
  { label := "Add child page"
    url := reverse "wagtailadmin_pages:add_subpage" [page.id]
    attrs := [("aria-label", "Add a child page to \x27" ++ page.admin_display_title ++ "\x27 ")]
    classes := []
    priority := 40
    kind := .pageListing }

def moreButton (page : Page) : WButton :=
  { label := "More"
    url := ""
    attrs := [("target", "_blank"), ("rel", "noopener noreferrer"),
              ("title", "View more options for \x27" ++ page.admin_display_title ++ "\x27")]
    classes := []
    priority := 50
    kind := .dropdownFromHook "register_page_listing_more_buttons" }

def page_listing_buttons (page : Page) (page_perms : PagePerms)
    (is_parent : Bool := false) (next_url : Option String := none) : List WButton :=
  (if page_perms.can_edit then [editButton page] else [])
  ++ (if page.has_unpublished_changes && page.is_previewable then [viewDraftButton page] else [])
  ++ (if page.live && pyTruthyOptStr page.url then [viewLiveButton page] else [])
  ++ (if page_perms.can_add_subpage then
        [if is_parent then addChildPageParentButton page else addChildPageButton page] else [])
  ++ [moreButton page]

def moveButton (page : Page) : WButton :=
  { label := "Move"
    url := reverse "wagtailadmin_pages:move" [page.id]
    attrs := [("title", "Move page \x27" ++ page.admin_display_title ++ "\x27")]
    classes := []
    priority := 10
    kind := .plain }

def copyButton (page : Page) (next_url : Option String) : WButton :=
  { label := "Copy"
    url := append_querystring (reverse "wagtailadmin_pages:copy" [page.id]) next_url
    attrs := [("title", "Copy page \x27" ++ page.admin_display_title ++ "\x27")]
    classes := []
    priority := 20
    kind := .plain }

def deleteButton (page : Page) (next_url : Option String) : WButton :=
  { label := "Delete"
    url := append_querystring (reverse "wagtailadmin_pages:delete" [page.id]) next_url
    attrs := [("title", "Delete page \x27" ++ page.admin_display_title ++ "\x27")]
    classes := []
    priority := 30
    kind := .plain }

def unpublishButton (page : Page) (next_url : Option String) : WButton :=
  { label := "Unpublish"
    url := append_querystring (reverse "wagtailadmin_pages:unpublish" [page.id]) next_url
    attrs := [("title", "Unpublish page \x27" ++ page.admin_display_title ++ "\x27")]
    classes := []
    priority := 40
    kind := .plain }

def revisionsButton (page : Page) : WButton :=
  { label := "Revisions"
    url := reverse "wagtailadmin_pages:revisions_index" [page.id]
    attrs := [("title", "View revision history for \x27" ++ page.admin_display_title ++ "\x27")]
    classes := []
    priority := 50
    kind := .plain }

def historyButton (page : Page) : WButton :=
  { label := "History"
    url := reverse "wagtailadmin_pages:history" [page.id]
    attrs := [("title", "View page history for \x27" ++ page.admin_display_title ++ "\x27")]
    classes := []
    priority := 50
    kind := .plain }

def page_listing_more_buttons (page : Page) (page_perms : PagePerms)
    (is_parent : Bool := false) (next_url : Option String := none) : List WButton :=
  (if page_perms.can_move then [moveButton page] else [])
  ++ (if page_perms.can_copy then [copyButton page next_url] else [])
  ++ (if page_perms.can_delete then [deleteButton page next_url] else [])
  ++ (if page_perms.can_unpublish then [unpublishButton page next_url] else [])
  ++ (if page_perms.can_view_revisions then [revisionsButton page] else [])
  ++ (if page_perms.can_view_revisions then [historyButton page] else [])

/-! ### Menu items and their visibility predicates

Each menu item class of the file carries an `is_shown` predicate over the
request.  The permission-policy calls they delegate to are external to
this file; we model their results as boolean fields of the request. -/
structure AdminRequest where
  user_has_any_page_permission : Bool
  collection_add_change_delete : Bool
  workflow_add_change_delete : Bool
  can_remove_locks : Bool
  explorable_pages_exist : Bool
deriving DecidableEq, Repr

structure AdminMenuItem where
  label : String
  is_shown : AdminRequest → Bool

def explorerMenuItem : AdminMenuItem :=
  ⟨"Pages", fun r => r.user_has_any_page_permission⟩

def pageSearchArea : AdminMenuItem :=
  ⟨"Pages", fun r => r.user_has_any_page_permission⟩

def collectionsMenuItem : AdminMenuItem :=
  ⟨"Collections", fun r => r.collection_add_change_delete⟩

def workflowsMenuItem : AdminMenuItem :=
  ⟨"Workflows", fun r => r.workflow_add_change_delete⟩

def lockedPagesMenuItem : AdminMenuItem :=
  ⟨"Locked Pages", fun r => r.can_remove_locks⟩

def workflowReportMenuItem : AdminMenuItem :=
  ⟨"Workflows", fun _ => true⟩

def siteHistoryReportMenuItem : AdminMenuItem :=
  ⟨"Site history", fun r => r.explorable_pages_exist⟩

/-- Modelled from the spec: the host framework renders exactly those
registered menu items whose `is_shown` predicate returns true for the
request; the filtering itself happens outside this file. -/
def shownMenuItems (items : List AdminMenuItem) (r : AdminRequest) : List AdminMenuItem :=
  items.filter (fun i => i.is_shown r)

/-! ### Rich-text feature registration (`register_core_features`)

The registrar populates two tables: editor plugins (per editor backend)
and converter rules (per converter).  The converter rule payloads are
static data; the conversion engine and the handler classes live outside
this file, so the handlers are embedded as tagged constructors carrying
exactly the arguments the file passes them. -/
/-- A `from_database_format` element handler, carrying the constructor
argument given at the registration site (none for the argument-less
handlers). -/
inductive CSHandler where
  | blockElement (t : String)
  | inlineStyle (t : String)
  | listElement (t : String)
  | listItem
  | horizontalRule
  | externalLink (t : String)
  | pageLink (t : String)
deriving DecidableEq, Repr

/-- A `block_map` target: either a plain tag, or an element with a
wrapper (the list features). -/
inductive BlockTarget where
  | tag (t : String)
  | wrapped (element wrapper : String)
deriving DecidableEq, Repr

/-- An `entity_decorators` value: the inline lambda building a fixed
element, or the imported `link_entity` function. -/
inductive EntityDecorator where
  | createElement (tag : String)
  | linkEntity
deriving DecidableEq, Repr

/-- A `contentstate` converter rule: the `from_database_format` mapping
(selector to handler) and the three possible `to_database_format`
components. -/
structure ContentstateRule where
  from_database_format : List (String × CSHandler)
  block_map : List (String × BlockTarget)
  style_map : List (String × String)
  entity_decorators : List (String × EntityDecorator)
deriving DecidableEq, Repr

/-- An attribute-value check used by `attribute_rule`. -/
inductive AttrCheck where
  | check_url
deriving DecidableEq, Repr

/-- The attribute policy of a `WhitelistRule`. -/
inductive AttrPolicy where
  | allow_without_attributes
  | attribute_rule (checks : List (String × AttrCheck))
deriving DecidableEq, Repr

/-- One element of an `editorhtml` converter rule list. -/
inductive EditorHtmlRule where
  | whitelistRule (tag : String) (policy : AttrPolicy)
  | linkTypeRule (linktype : String) (handler : String)
deriving DecidableEq, Repr

inductive ConverterRule where
  | editorhtml (rules : List EditorHtmlRule)
  | contentstate (rule : ContentstateRule)
deriving DecidableEq, Repr

/-- One alternative of an anchored alternation regex: a literal, plus
whether the alternative ends with the end-of-string anchor `$`. -/
structure RxAlternative where
  literal : List Char
  anchoredEnd : Bool
deriving DecidableEq, Repr

/-- An anchored alternation regex `^(a1|a2|...)`, the only regex shape
appearing in this file. -/
structure RxAnchoredAlternation where
  alternatives : List RxAlternative
deriving DecidableEq, Repr

/-- Match a literal against the start of the input; on success return
the unconsumed rest. -/
def litMatch : List Char → List Char → Option (List Char)
  | [], s => some s
  | _ :: _, [] => none
  | c :: cs, d :: ds => if c = d then litMatch cs ds else none

def RxAlternative.accepts (a : RxAlternative) (s : List Char) : Bool :=
  match litMatch a.literal s with
  | some rest => !a.anchoredEnd || rest.isEmpty
  | none => false

def RxAnchoredAlternation.accepts (p : RxAnchoredAlternation) (s : String) : Bool :=
  p.alternatives.any (fun a => a.accepts s.data)

/-- The pattern string `^(http:|https:|undefined$)` of the draftail link
feature, embedded as an anchored alternation. -/
def hrefWhitelistPattern : RxAnchoredAlternation :=
  ⟨[⟨"http:".data, false⟩, ⟨"https:".data, false⟩, ⟨"undefined".data, true⟩]⟩

/-- An editor-plugin descriptor, carrying the arguments given at the
registration site. -/
inductive EditorPlugin where
  | halloPlugin (name : String) (js : List String) (order : Option Nat)
  | halloFormatPlugin (format_name : String)
  | halloHeadingPlugin (element : String) (order : Nat)
  | halloListPlugin (list_type : String)
  | booleanFeature (name : String)
  | blockFeature (label : Option String) (blockType : String) (icon : Option String)
      (description : String)
  | inlineStyleFeature (styleType : String) (icon : String) (description : String)
  | entityFeature (entityType : String) (icon : String) (description : String)
      (attributes : List String) (whitelist : List (String × RxAnchoredAlternation))
      (js : List String)
deriving DecidableEq, Repr

/-- The draftail link feature: its whitelist subjects `href` to the
scheme pattern. -/
def linkEntityFeature : EditorPlugin :=
  .entityFeature "LINK" "link" "Link" ["url", "id", "parentId"]
    [("href", hrefWhitelistPattern)] ["wagtailadmin/js/page-chooser-modal.js"]

/-- Modelled from the spec: `HalloHeadingPlugin.default_order` is defined
outside this file; no claim depends on its concrete value. -/
def halloHeadingDefaultOrder : Nat := 20

/-- The description of a draftail heading feature:
`gettext('Heading %(level)d') % level`. -/
def headingDescription (level : Nat) : String :=
  "Heading " ++ toString level

structure FeatureRegistry where
  editorPlugins : List (String × String × EditorPlugin)
  converterRules : List (String × String × ConverterRule)

def emptyFeatureRegistry : FeatureRegistry := ⟨[], []⟩

/-- The `register_editor_plugin` calls of `register_core_features`, in
source order: (editor, feature, plugin descriptor). -/
def corePluginRegistrations : List (String × String × EditorPlugin) :=
  [("hallo", "hr", .halloPlugin "hallohr" ["wagtailadmin/js/hallo-plugins/hallo-hr.js"] (some 45)),
   ("hallo", "link", .halloPlugin "hallowagtaillink"
      ["wagtailadmin/js/page-chooser-modal.js",
       "wagtailadmin/js/hallo-plugins/hallo-wagtaillink.js"] none),
   ("hallo", "bold", .halloFormatPlugin "bold"),
   ("hallo", "italic", .halloFormatPlugin "italic"),
   ("hallo", "h1", .halloHeadingPlugin "h1" (halloHeadingDefaultOrder + 1)),
   ("hallo", "h2", .halloHeadingPlugin "h2" (halloHeadingDefaultOrder + 2)),
   ("hallo", "h3", .halloHeadingPlugin "h3" (halloHeadingDefaultOrder + 3)),
   ("hallo", "h4", .halloHeadingPlugin "h4" (halloHeadingDefaultOrder + 4)),
   ("hallo", "h5", .halloHeadingPlugin "h5" (halloHeadingDefaultOrder + 5)),
   ("hallo", "h6", .halloHeadingPlugin "h6" (halloHeadingDefaultOrder + 6)),
   ("hallo", "ol", .halloListPlugin "ordered"),
   ("hallo", "ul", .halloListPlugin "unordered"),
   ("draftail", "hr", .booleanFeature "enableHorizontalRule"),
   ("draftail", "h1", .blockFeature (some "H1") "header-one" none (headingDescription 1)),
   ("draftail", "h2", .blockFeature (some "H2") "header-two" none (headingDescription 2)),
   ("draftail", "h3", .blockFeature (some "H3") "header-three" none (headingDescription 3)),
   ("draftail", "h4", .blockFeature (some "H4") "header-four" none (headingDescription 4)),
   ("draftail", "h5", .blockFeature (some "H5") "header-five" none (headingDescription 5)),
   ("draftail", "h6", .blockFeature (some "H6") "header-six" none (headingDescription 6)),
   ("draftail", "ul", .blockFeature none "unordered-list-item" (some "list-ul") "Bulleted list"),
   ("draftail", "ol", .blockFeature none "ordered-list-item" (some "list-ol") "Numbered list"),
   ("draftail", "blockquote", .blockFeature none "blockquote" (some "openquote") "Blockquote"),
   ("draftail", "bold", .inlineStyleFeature "BOLD" "bold" "Bold"),
   ("draftail", "italic", .inlineStyleFeature "ITALIC" "italic" "Italic"),
   ("draftail", "link", linkEntityFeature),
   ("draftail", "superscript", .inlineStyleFeature "SUPERSCRIPT" "superscript" "Superscript"),
   ("draftail", "subscript", .inlineStyleFeature "SUBSCRIPT" "subscript" "Subscript"),
   ("draftail", "strikethrough", .inlineStyleFeature "STRIKETHROUGH" "strikethrough" "Strikethrough"),
   ("draftail", "code", .inlineStyleFeature "CODE" "code" "Code")]

/-- The `register_converter_rule` calls of `register_core_features`, in
source order: (converter, feature, rule). -/
def coreConverterRuleRegistrations : List (String × String × ConverterRule) :=
  [("editorhtml", "hr", .editorhtml [.whitelistRule "hr" .allow_without_attributes]),
   ("editorhtml", "link", .editorhtml
      [.whitelistRule "a" (.attribute_rule [("href", .check_url)]),
       .linkTypeRule "page" "PageLinkHandler"]),
   ("editorhtml", "bold", .editorhtml
      [.whitelistRule "b" .allow_without_attributes,
       .whitelistRule "strong" .allow_without_attributes]),
   ("editorhtml", "italic", .editorhtml
      [.whitelistRule "i" .allow_without_attributes,
       .whitelistRule "em" .allow_without_attributes]),
   ("editorhtml", "h1", .editorhtml [.whitelistRule "h1" .allow_without_attributes]),
   ("editorhtml", "h2", .editorhtml [.whitelistRule "h2" .allow_without_attributes]),
   ("editorhtml", "h3", .editorhtml [.whitelistRule "h3" .allow_without_attributes]),
   ("editorhtml", "h4", .editorhtml [.whitelistRule "h4" .allow_without_attributes]),
   ("editorhtml", "h5", .editorhtml [.whitelistRule "h5" .allow_without_attributes]),
   ("editorhtml", "h6", .editorhtml [.whitelistRule "h6" .allow_without_attributes]),
   ("editorhtml", "ol", .editorhtml
      [.whitelistRule "ol" .allow_without_attributes,
       .whitelistRule "li" .allow_without_attributes]),
   ("editorhtml", "ul", .editorhtml
      [.whitelistRule "ul" .allow_without_attributes,
       .whitelistRule "li" .allow_without_attributes]),
   ("contentstate", "hr", .contentstate
      ⟨[("hr", .horizontalRule)], [], [], [("HORIZONTAL_RULE", .createElement "hr")]⟩),
   ("contentstate", "h1", .contentstate
      ⟨[("h1", .blockElement "header-one")], [("header-one", .tag "h1")], [], []⟩),
   ("contentstate", "h2", .contentstate
      ⟨[("h2", .blockElement "header-two")], [("header-two", .tag "h2")], [], []⟩),
   ("contentstate", "h3", .contentstate
      ⟨[("h3", .blockElement "header-three")], [("header-three", .tag "h3")], [], []⟩),
   ("contentstate", "h4", .contentstate
      ⟨[("h4", .blockElement "header-four")], [("header-four", .tag "h4")], [], []⟩),
   ("contentstate", "h5", .contentstate
      ⟨[("h5", .blockElement "header-five")], [("header-five", .tag "h5")], [], []⟩),
   ("contentstate", "h6", .contentstate
      ⟨[("h6", .blockElement "header-six")], [("header-six", .tag "h6")], [], []⟩),
   ("contentstate", "ul", .contentstate
      ⟨[("ul", .listElement "unordered-list-item"), ("li", .listItem)],
       [("unordered-list-item", .wrapped "li" "ul")], [], []⟩),
   ("contentstate", "ol", .contentstate
      ⟨[("ol", .listElement "ordered-list-item"), ("li", .listItem)],
       [("ordered-list-item", .wrapped "li" "ol")], [], []⟩),
   ("contentstate", "blockquote", .contentstate
      ⟨[("blockquote", .blockElement "blockquote")], [("blockquote", .tag "blockquote")], [], []⟩),
   ("contentstate", "bold", .contentstate
      ⟨[("b", .inlineStyle "BOLD"), ("strong", .inlineStyle "BOLD")], [], [("BOLD", "b")], []⟩),
   ("contentstate", "italic", .contentstate
      ⟨[("i", .inlineStyle "ITALIC"), ("em", .inlineStyle "ITALIC")], [], [("ITALIC", "i")], []⟩),
   ("contentstate", "link", .contentstate
      ⟨[("a[href]", .externalLink "LINK"), ("a[linktype=\"page\"]", .pageLink "LINK")],
       [], [], [("LINK", .linkEntity)]⟩),
   ("contentstate", "superscript", .contentstate
      ⟨[("sup", .inlineStyle "SUPERSCRIPT")], [], [("SUPERSCRIPT", "sup")], []⟩),
   ("contentstate", "subscript", .contentstate
      ⟨[("sub", .inlineStyle "SUBSCRIPT")], [], [("SUBSCRIPT", "sub")], []⟩),
   ("contentstate", "strikethrough", .contentstate
      ⟨[("s", .inlineStyle "STRIKETHROUGH")], [], [("STRIKETHROUGH", "s")], []⟩),
   ("contentstate", "code", .contentstate
      ⟨[("code", .inlineStyle "CODE")], [], [("CODE", "code")], []⟩)]

/-- `register_core_features`: each `register_editor_plugin` and
`register_converter_rule` call appends one entry to the corresponding
table, in source order. -/
def register_core_features (f : FeatureRegistry) : FeatureRegistry :=
  { editorPlugins := f.editorPlugins ++ corePluginRegistrations
    converterRules := f.converterRules ++ coreConverterRuleRegistrations }

/-! ### Round-trip property of the contentstate conversion tables -/
/-- First-match association lookup. -/
def assocLookup {α : Type} : List (String × α) → String → Option α
  | [], _ => none
  | (k, v) :: rest, key => if k = key then some v else assocLookup rest key

/-- Modelled from the spec: the internal editing node type produced by a
`from_database_format` element handler (the conversion engine and handler
classes live outside this file).  A handler constructed with an explicit
type argument produces that type; the list-item handler produces the item
type of its enclosing list (passed as context); the horizontal-rule
handler produces the HORIZONTAL_RULE entity. -/
def CSHandler.yields : CSHandler → Option String → Option String
  | .blockElement t, _ => some t
  | .inlineStyle t, _ => some t
  | .listElement t, _ => some t
  | .listItem, ctx => ctx
  | .horizontalRule, _ => some "HORIZONTAL_RULE"
  | .externalLink t, _ => some t
  | .pageLink t, _ => some t

/-- Modelled from the spec: the selectors that match the element an
`entity_decorators` function emits.  The inline lambda emits exactly its
fixed tag; `link_entity` emits an `a` element carrying either an href
(external link) or `linktype="page"` (page link). -/
def EntityDecorator.producedSelectors : EntityDecorator → List String
  | .createElement tag => [tag]
  | .linkEntity => ["a[href]", "a[linktype=\"page\"]"]

/-- The rule tables are inverses: every internal node type sent to a
storage tag by `to_database_format` is mapped back to the same internal
node type by `from_database_format`. -/
def ContentstateRule.roundTrips (r : ContentstateRule) : Bool :=
  r.block_map.all (fun bt =>
    match bt.2 with
    | .tag tg =>
        ((assocLookup r.from_database_format tg).bind (fun h => h.yields none)) == some bt.1
    | .wrapped el wr =>
        (((assocLookup r.from_database_format wr).bind (fun h => h.yields none)) == some bt.1)
        && (((assocLookup r.from_database_format el).bind (fun h => h.yields (some bt.1)))
              == some bt.1))
  && r.style_map.all (fun st =>
    ((assocLookup r.from_database_format st.2).bind (fun h => h.yields none)) == some st.1)
  && r.entity_decorators.all (fun ed =>
    (EntityDecorator.producedSelectors ed.2).all (fun sel =>
      ((assocLookup r.from_database_format sel).bind (fun h => h.yields none)) == some ed.1))

/-- The contentstate rules registered by `register_core_features`. -/
def contentstateRules : List (String × ContentstateRule) :=
  (register_core_features emptyFeatureRegistry).converterRules.filterMap
    (fun e => match e with
      | (cname, fname, .contentstate cr) =>
        if cname = "contentstate" then some (fname, cr) else none
      | _ => none)

/-! ### Feature registration coverage (claim C7) -/
/-- The (editor, feature) keys of the registered editor plugins. -/
def registeredEditorPluginKeys : List (String × String) :=
  (register_core_features emptyFeatureRegistry).editorPlugins.map (fun e => (e.1, e.2.1))

/-- The (converter, feature) keys of the registered converter rules. -/
def registeredConverterRuleKeys : List (String × String) :=
  (register_core_features emptyFeatureRegistry).converterRules.map (fun e => (e.1, e.2.1))

/-! ### Audit-log action registration (claim C5) -/
/-- The message argument of `register_action`: a past-tense label or a
formatter function. -/
inductive LogActionMessage where
  | pastTense (s : String)
  | formatter (f : LogData → Except PyErr String)

structure LogAction where
  code : String
  label : String
  message : LogActionMessage

/-- `register_core_log_actions`: each `register_action` call appends one
action to the registry, in source order. -/
def register_core_log_actions (actions : List LogAction) : List LogAction :=
  actions ++
  [⟨"wagtail.create", "Create", .pastTense "Created"⟩,
   ⟨"wagtail.edit", "Save draft", .pastTense "Draft saved"⟩,
   ⟨"wagtail.delete", "Delete", .pastTense "Deleted"⟩,
   ⟨"wagtail.publish", "Publish", .pastTense "Published"⟩,
   ⟨"wagtail.unpublish", "Unpublish", .pastTense "Unpublished"⟩,
   ⟨"wagtail.lock", "Lock", .pastTense "Locked"⟩,
   ⟨"wagtail.unlock", "Unlock", .pastTense "Unlocked"⟩,
   ⟨"wagtail.moderation.approve", "Approve", .pastTense "Approved"⟩,
   ⟨"wagtail.moderation.reject", "Reject", .pastTense "Rejected"⟩,
   ⟨"wagtail.revert", "Revert", .formatter revert_message⟩,
   ⟨"wagtail.schedule.revert", "Schedule revert", .formatter schedule_revert_message⟩,
   ⟨"wagtail.copy", "Copy", .formatter copy_message⟩,
   ⟨"wagtail.move", "Move", .formatter move_message⟩,
   ⟨"wagtail.schedule.publish", "Schedule publication", .formatter schedule_publish_message⟩,
   ⟨"wagtail.schedule.cancel", "Unschedule publication", .formatter unschedule_publish_message⟩,
   ⟨"wagtail.view_restriction.create", "Add view restrictions", .formatter add_view_restriction⟩,
   ⟨"wagtail.view_restriction.edit", "Update view restrictions", .formatter edit_view_restriction⟩,
   ⟨"wagtail.view_restriction.delete", "Remove view restrictions", .formatter delete_view_restriction⟩]

/-- `register_workflow_log_actions`, in source order. -/
def register_workflow_log_actions (actions : List LogAction) : List LogAction :=
  actions ++
  [⟨"wagtail.workflow.start", "Workflow: start", .formatter workflow_start_message⟩,
   ⟨"wagtail.workflow.approve", "Workflow: approve task", .formatter workflow_approve_message⟩,
   ⟨"wagtail.workflow.reject", "Workflow: reject task", .formatter workflow_reject_message⟩]

/-- All action codes registered by the two `register_log_actions` hooks
of this file, in registration order. -/
def registeredLogActionCodes : List String :=
  (register_workflow_log_actions (register_core_log_actions [])).map LogAction.code

/-! ### Icon registration (claim C6) -/
def coreIconNames : List String :=
  ["arrow-down-big.svg",
   "arrow-down.svg",
   "arrow-left.svg",
   "arrow-right.svg",
   "arrow-up-big.svg",
   "arrow-up.svg",
   "arrows-up-down.svg",
   "bin.svg",
   "bold.svg",
   "chain-broken.svg",
   "clipboard-list.svg",
   "code.svg",
   "cog.svg",
   "cogs.svg",
   "collapse-down.svg",
   "collapse-up.svg",
   "cross.svg",
   "date.svg",
   "doc-empty-inverse.svg",
   "doc-empty.svg",
   "doc-full-inverse.svg",
   "doc-full.svg",
   "download.svg",
   "edit.svg",
   "failure.svg",
   "folder-inverse.svg",
   "folder-open-1.svg",
   "folder-open-inverse.svg",
   "folder.svg",
   "form.svg",
   "grip.svg",
   "group.svg",
   "help.svg",
   "home.svg",
   "horizontalrule.svg",
   "image.svg",
   "italic.svg",
   "link.svg",
   "list-ol.svg",
   "list-ul.svg",
   "lock-open.svg",
   "lock.svg",
   "logout.svg",
   "mail.svg",
   "media.svg",
   "no-view.svg",
   "openquote.svg",
   "order-down.svg",
   "order-up.svg",
   "order.svg",
   "password.svg",
   "pick.svg",
   "pilcrow.svg",
   "placeholder.svg",
   "plus-inverse.svg",
   "plus.svg",
   "radio-empty.svg",
   "radio-full.svg",
   "redirect.svg",
   "repeat.svg",
   "search.svg",
   "site.svg",
   "snippet.svg",
   "spinner.svg",
   "success.svg",
   "table.svg",
   "tag.svg",
   "tick-inverse.svg",
   "tick.svg",
   "time.svg",
   "title.svg",
   "undo.svg",
   "uni52.svg",
   "user.svg",
   "view.svg",
   "wagtail-inverse.svg",
   "wagtail.svg",
   "warning.svg"]

/-- `register_icons`: appends one path per icon file name to the given
icon list and returns it. -/
def register_icons (icons : List String) : List String :=
  icons ++ coreIconNames.map (fun icon => "wagtailadmin/icons/" ++ icon)

/-! ### Theorems -/

@[simp] theorem except_ok_bind {α β ε : Type} (a : α) (f : α → Except ε β) :
    (Except.ok a >>= f) = f a := rfl

@[simp] theorem except_error_bind {α β ε : Type} (e : ε) (f : α → Except ε β) :
    ((Except.error e : Except ε α) >>= f) = Except.error e := rfl

@[simp] theorem except_pure_eq {α ε : Type} (a : α) :
    (pure a : Except ε α) = Except.ok a := rfl

/-! ### Lemmas about the exception handlers -/
theorem catchKeyError_of_keyError (g : String) {r : Except PyErr String}
    (h : r = .error .keyError) : catchKeyError g r = .ok g := by
  rw [h]; rfl

theorem catchKeyError_ne_keyError (g : String) (r : Except PyErr String) :
    catchKeyError g r ≠ .error .keyError := by
  cases r with
  | ok s => simp [catchKeyError]
  | error e => cases e <;> simp [catchKeyError]

theorem catchKeyOrTypeError_isOk (g : String) (r : Except PyErr String) :
    ∃ s, catchKeyOrTypeError g r = .ok s := by
  cases r with
  | ok s => exact ⟨s, rfl⟩
  | error e => exact ⟨g, rfl⟩

theorem catchKeyOrTypeError_of_error (g : String) {r : Except PyErr String} {e : PyErr}
    (h : r = .error e) : catchKeyOrTypeError g r = .ok g := by
  rw [h]; cases e <;> rfl

/-! ### Detailed-message lemmas: when every key a formatter reads is
present, the formatter produces the interpolated template. -/
theorem revert_message_detail (d r i c : LogData)
    (h1 : d.get "revision" = .ok r) (h2 : r.get "id" = .ok i)
    (h3 : r.get "created" = .ok c) :
    revert_message d = .ok (revertDetail i.toStr c.toStr) := by
  simp [revert_message, revert_message_try, catchKeyError, h1, h2, h3]

theorem schedule_revert_message_detail (d r i c g : LogData)
    (h1 : d.get "revision" = .ok r) (h2 : r.get "id" = .ok i)
    (h3 : r.get "created" = .ok c) (h4 : r.get "go_live_at" = .ok g) :
    schedule_revert_message d = .ok (scheduleRevertDetail i.toStr c.toStr g.toStr) := by
  simp [schedule_revert_message, schedule_revert_message_try, catchKeyError, h1, h2, h3, h4]

theorem copy_message_detail (d s t : LogData)
    (h1 : d.get "source" = .ok s) (h2 : s.get "title" = .ok t) :
    copy_message d = .ok (copyDetail t.toStr) := by
  simp [copy_message, copy_message_try, catchKeyError, h1, h2]

theorem move_message_detail (d s t dst t2 : LogData)
    (h1 : d.get "source" = .ok s) (h2 : s.get "title" = .ok t)
    (h3 : d.get "destination" = .ok dst) (h4 : dst.get "title" = .ok t2) :
    move_message d = .ok (moveDetail t.toStr t2.toStr) := by
  simp [move_message, move_message_try, catchKeyError, h1, h2, h3, h4]

theorem schedule_publish_message_detail_live (d r hlv i c g : LogData)
    (h1 : d.get "revision" = .ok r) (h2 : r.get "has_live_version" = .ok hlv)
    (ht : hlv.truthy = true) (h3 : r.get "id" = .ok i)
    (h4 : r.get "created" = .ok c) (h5 : r.get "go_live_at" = .ok g) :
    schedule_publish_message d = .ok (schedulePublishDetailLive i.toStr c.toStr g.toStr) := by
  simp [schedule_publish_message, schedule_publish_message_try, catchKeyError,
    h1, h2, ht, h3, h4, h5]

theorem schedule_publish_message_detail_new (d r hlv g : LogData)
    (h1 : d.get "revision" = .ok r) (h2 : r.get "has_live_version" = .ok hlv)
    (ht : hlv.truthy = false) (h5 : r.get "go_live_at" = .ok g) :
    schedule_publish_message d = .ok (schedulePublishDetailNew g.toStr) := by
  simp [schedule_publish_message, schedule_publish_message_try, catchKeyError,
    h1, h2, ht, h5]

theorem unschedule_publish_message_detail_live (d r hlv i c g : LogData)
    (h1 : d.get "revision" = .ok r) (h2 : r.get "has_live_version" = .ok hlv)
    (ht : hlv.truthy = true) (h3 : r.get "id" = .ok i)
    (h4 : r.get "created" = .ok c) (h5 : r.get "go_live_at" = .ok g) :
    unschedule_publish_message d = .ok (unschedulePublishDetailLive i.toStr c.toStr g.toStr) := by
  simp [unschedule_publish_message, unschedule_publish_message_try, catchKeyError,
    h1, h2, ht, h3, h4, h5]

theorem unschedule_publish_message_detail_new (d r hlv g : LogData)
    (h1 : d.get "revision" = .ok r) (h2 : r.get "has_live_version" = .ok hlv)
    (ht : hlv.truthy = false) (h5 : r.get "go_live_at" = .ok g) :
    unschedule_publish_message d = .ok (unschedulePublishDetailNew g.toStr) := by
  simp [unschedule_publish_message, unschedule_publish_message_try, catchKeyError,
    h1, h2, ht, h5]

theorem add_view_restriction_detail_of_keys (d r t : LogData)
    (h1 : d.get "restriction" = .ok r) (h2 : r.get "title" = .ok t) :
    add_view_restriction d = .ok (addViewRestrictionDetail t.toStr) := by
  simp [add_view_restriction, add_view_restriction_try, catchKeyError, h1, h2]

theorem edit_view_restriction_detail_of_keys (d r t : LogData)
    (h1 : d.get "restriction" = .ok r) (h2 : r.get "title" = .ok t) :
    edit_view_restriction d = .ok (editViewRestrictionDetail t.toStr) := by
  simp [edit_view_restriction, edit_view_restriction_try, catchKeyError, h1, h2]

theorem delete_view_restriction_detail_of_keys (d r t : LogData)
    (h1 : d.get "restriction" = .ok r) (h2 : r.get "title" = .ok t) :
    delete_view_restriction d = .ok (deleteViewRestrictionDetail t.toStr) := by
  simp [delete_view_restriction, delete_view_restriction_try, catchKeyError, h1, h2]

theorem workflow_start_message_detail (d w wt nx tt : LogData)
    (h1 : d.get "workflow" = .ok w) (h2 : w.get "title" = .ok wt)
    (h3 : w.get "next" = .ok nx) (h4 : nx.get "title" = .ok tt) :
    workflow_start_message d = .ok (workflowStartDetail wt.toStr tt.toStr) := by
  simp [workflow_start_message, workflow_start_message_try, catchKeyOrTypeError,
    h1, h2, h3, h4]

theorem workflow_approve_message_detail_next (d w nx tk tkt nxt : LogData)
    (h1 : d.get "workflow" = .ok w) (h2 : w.get "next" = .ok nx)
    (ht : nx.truthy = true) (h3 : w.get "task" = .ok tk)
    (h4 : tk.get "title" = .ok tkt) (h5 : nx.get "title" = .ok nxt) :
    workflow_approve_message d = .ok (workflowApproveDetailNext tkt.toStr nxt.toStr) := by
  simp [workflow_approve_message, workflow_approve_message_try, catchKeyOrTypeError,
    h1, h2, ht, h3, h4, h5]

theorem workflow_approve_message_detail_done (d w nx tk tkt wt : LogData)
    (h1 : d.get "workflow" = .ok w) (h2 : w.get "next" = .ok nx)
    (ht : nx.truthy = false) (h3 : w.get "task" = .ok tk)
    (h4 : tk.get "title" = .ok tkt) (h5 : w.get "title" = .ok wt) :
    workflow_approve_message d = .ok (workflowApproveDetailDone tkt.toStr wt.toStr) := by
  simp [workflow_approve_message, workflow_approve_message_try, catchKeyOrTypeError,
    h1, h2, ht, h3, h4, h5]

theorem workflow_reject_message_detail (d w tk tkt : LogData)
    (h1 : d.get "workflow" = .ok w) (h2 : w.get "task" = .ok tk)
    (h3 : tk.get "title" = .ok tkt) :
    workflow_reject_message d = .ok (workflowRejectDetail tkt.toStr) := by
  simp [workflow_reject_message, workflow_reject_message_try, catchKeyOrTypeError,
    h1, h2, h3]

/-- Claim C1 (amended): every audit-log message formatter registered in
this file returns the detailed templated message when every key it reads
is present; when a lookup raises a missing-key error inside the template
body it returns the action generic label; a missing-key error never
propagates out of any formatter, and the three workflow formatters
propagate no error at all.  However (the correction, witnessed by the
separate counterexample) the nine detailed core formatters catch only the
missing-key error, so a type error raised by subscripting a non-mapping
intermediate value propagates out of them. -/
theorem claim_C1 :
    (∀ d r i c, LogData.get d "revision" = .ok r → LogData.get r "id" = .ok i →
      LogData.get r "created" = .ok c →
      revert_message d = .ok (revertDetail i.toStr c.toStr))
    ∧ (∀ d, revert_message_try d = .error .keyError →
      revert_message d = .ok "Reverted to previous revision")
    ∧ (∀ d, revert_message d ≠ .error .keyError)
    ∧ (∀ d r i c g, LogData.get d "revision" = .ok r → LogData.get r "id" = .ok i →
      LogData.get r "created" = .ok c → LogData.get r "go_live_at" = .ok g →
      schedule_revert_message d = .ok (scheduleRevertDetail i.toStr c.toStr g.toStr))
    ∧ (∀ d, schedule_revert_message_try d = .error .keyError →
      schedule_revert_message d = .ok "Revision scheduled for publishing")
    ∧ (∀ d, schedule_revert_message d ≠ .error .keyError)
    ∧ (∀ d s t, LogData.get d "source" = .ok s → LogData.get s "title" = .ok t →
      copy_message d = .ok (copyDetail t.toStr))
    ∧ (∀ d, copy_message_try d = .error .keyError → copy_message d = .ok "Copied")
    ∧ (∀ d, copy_message d ≠ .error .keyError)
    ∧ (∀ d s t dst t2, LogData.get d "source" = .ok s → LogData.get s "title" = .ok t →
      LogData.get d "destination" = .ok dst → LogData.get dst "title" = .ok t2 →
      move_message d = .ok (moveDetail t.toStr t2.toStr))
    ∧ (∀ d, move_message_try d = .error .keyError → move_message d = .ok "Moved")
    ∧ (∀ d, move_message d ≠ .error .keyError)
    ∧ (∀ d r hlv i c g, LogData.get d "revision" = .ok r →
      LogData.get r "has_live_version" = .ok hlv → hlv.truthy = true →
      LogData.get r "id" = .ok i → LogData.get r "created" = .ok c →
      LogData.get r "go_live_at" = .ok g →
      schedule_publish_message d = .ok (schedulePublishDetailLive i.toStr c.toStr g.toStr))
    ∧ (∀ d r hlv g, LogData.get d "revision" = .ok r →
      LogData.get r "has_live_version" = .ok hlv → hlv.truthy = false →
      LogData.get r "go_live_at" = .ok g →
      schedule_publish_message d = .ok (schedulePublishDetailNew g.toStr))
    ∧ (∀ d, schedule_publish_message_try d = .error .keyError →
      schedule_publish_message d = .ok "Page scheduled for publishing")
    ∧ (∀ d, schedule_publish_message d ≠ .error .keyError)
    ∧ (∀ d r hlv i c g, LogData.get d "revision" = .ok r →
      LogData.get r "has_live_version" = .ok hlv → hlv.truthy = true →
      LogData.get r "id" = .ok i → LogData.get r "created" = .ok c →
      LogData.get r "go_live_at" = .ok g →
      unschedule_publish_message d = .ok (unschedulePublishDetailLive i.toStr c.toStr g.toStr))
    ∧ (∀ d r hlv g, LogData.get d "revision" = .ok r →
      LogData.get r "has_live_version" = .ok hlv → hlv.truthy = false →
      LogData.get r "go_live_at" = .ok g →
      unschedule_publish_message d = .ok (unschedulePublishDetailNew g.toStr))
    ∧ (∀ d, unschedule_publish_message_try d = .error .keyError →
      unschedule_publish_message d = .ok "Page unscheduled from publishing")
    ∧ (∀ d, unschedule_publish_message d ≠ .error .keyError)
    ∧ (∀ d r t, LogData.get d "restriction" = .ok r → LogData.get r "title" = .ok t →
      add_view_restriction d = .ok (addViewRestrictionDetail t.toStr))
    ∧ (∀ d, add_view_restriction_try d = .error .keyError →
      add_view_restriction d = .ok "Added view restriction")
    ∧ (∀ d, add_view_restriction d ≠ .error .keyError)
    ∧ (∀ d r t, LogData.get d "restriction" = .ok r → LogData.get r "title" = .ok t →
      edit_view_restriction d = .ok (editViewRestrictionDetail t.toStr))
    ∧ (∀ d, edit_view_restriction_try d = .error .keyError →
      edit_view_restriction d = .ok "Updated view restriction")
    ∧ (∀ d, edit_view_restriction d ≠ .error .keyError)
    ∧ (∀ d r t, LogData.get d "restriction" = .ok r → LogData.get r "title" = .ok t →
      delete_view_restriction d = .ok (deleteViewRestrictionDetail t.toStr))
    ∧ (∀ d, delete_view_restriction_try d = .error .keyError →
      delete_view_restriction d = .ok "Removed view restriction")
    ∧ (∀ d, delete_view_restriction d ≠ .error .keyError)
    ∧ (∀ d w wt nx tt, LogData.get d "workflow" = .ok w → LogData.get w "title" = .ok wt →
      LogData.get w "next" = .ok nx → LogData.get nx "title" = .ok tt →
      workflow_start_message d = .ok (workflowStartDetail wt.toStr tt.toStr))
    ∧ (∀ d e, workflow_start_message_try d = .error e →
      workflow_start_message d = .ok "Workflow started")
    ∧ (∀ d, ∃ s, workflow_start_message d = .ok s)
    ∧ (∀ d w nx tk tkt nxt, LogData.get d "workflow" = .ok w → LogData.get w "next" = .ok nx →
      nx.truthy = true → LogData.get w "task" = .ok tk → LogData.get tk "title" = .ok tkt →
      LogData.get nx "title" = .ok nxt →
      workflow_approve_message d = .ok (workflowApproveDetailNext tkt.toStr nxt.toStr))
    ∧ (∀ d w nx tk tkt wt, LogData.get d "workflow" = .ok w → LogData.get w "next" = .ok nx →
      nx.truthy = false → LogData.get w "task" = .ok tk → LogData.get tk "title" = .ok tkt →
      LogData.get w "title" = .ok wt →
      workflow_approve_message d = .ok (workflowApproveDetailDone tkt.toStr wt.toStr))
    ∧ (∀ d e, workflow_approve_message_try d = .error e →
      workflow_approve_message d = .ok "Workflow task approved")
    ∧ (∀ d, ∃ s, workflow_approve_message d = .ok s)
    ∧ (∀ d w tk tkt, LogData.get d "workflow" = .ok w → LogData.get w "task" = .ok tk →
      LogData.get tk "title" = .ok tkt →
      workflow_reject_message d = .ok (workflowRejectDetail tkt.toStr))
    ∧ (∀ d e, workflow_reject_message_try d = .error e →
      workflow_reject_message d = .ok "Workflow task rejected. Workflow complete")
    ∧ (∀ d, ∃ s, workflow_reject_message d = .ok s) :=
  ⟨revert_message_detail,
   fun _ h => catchKeyError_of_keyError _ h,
   fun _ => catchKeyError_ne_keyError _ _,
   schedule_revert_message_detail,
   fun _ h => catchKeyError_of_keyError _ h,
   fun _ => catchKeyError_ne_keyError _ _,
   copy_message_detail,
   fun _ h => catchKeyError_of_keyError _ h,
   fun _ => catchKeyError_ne_keyError _ _,
   move_message_detail,
   fun _ h => catchKeyError_of_keyError _ h,
   fun _ => catchKeyError_ne_keyError _ _,
   schedule_publish_message_detail_live,
   schedule_publish_message_detail_new,
   fun _ h => catchKeyError_of_keyError _ h,
   fun _ => catchKeyError_ne_keyError _ _,
   unschedule_publish_message_detail_live,
   unschedule_publish_message_detail_new,
   fun _ h => catchKeyError_of_keyError _ h,
   fun _ => catchKeyError_ne_keyError _ _,
   add_view_restriction_detail_of_keys,
   fun _ h => catchKeyError_of_keyError _ h,
   fun _ => catchKeyError_ne_keyError _ _,
   edit_view_restriction_detail_of_keys,
   fun _ h => catchKeyError_of_keyError _ h,
   fun _ => catchKeyError_ne_keyError _ _,
   delete_view_restriction_detail_of_keys,
   fun _ h => catchKeyError_of_keyError _ h,
   fun _ => catchKeyError_ne_keyError _ _,
   workflow_start_message_detail,
   fun _ _ h => catchKeyOrTypeError_of_error _ h,
   fun _ => catchKeyOrTypeError_isOk _ _,
   workflow_approve_message_detail_next,
   workflow_approve_message_detail_done,
   fun _ _ h => catchKeyOrTypeError_of_error _ h,
   fun _ => catchKeyOrTypeError_isOk _ _,
   workflow_reject_message_detail,
   fun _ _ h => catchKeyOrTypeError_of_error _ h,
   fun _ => catchKeyOrTypeError_isOk _ _⟩

/-- Witness for C1 at concrete inputs: a fully populated revert event
yields the detailed message, and an empty event mapping yields the
generic label. -/
theorem claim_C1_witness :
    revert_message (LogData.obj [("revision",
        LogData.obj [("id", LogData.num 1), ("created", LogData.str "2020-01-01")])])
      = .ok "Reverted to previous revision with id 1 from 2020-01-01"
    ∧ revert_message (LogData.obj []) = .ok "Reverted to previous revision" :=
  ⟨claim_C1.1 (LogData.obj [("revision",
      LogData.obj [("id", LogData.num 1), ("created", LogData.str "2020-01-01")])])
    (LogData.obj [("id", LogData.num 1), ("created", LogData.str "2020-01-01")])
    (LogData.num 1) (LogData.str "2020-01-01") rfl rfl rfl,
   claim_C1.2.1 (LogData.obj []) rfl⟩

/-- Counterexample for C1 as stated: the core formatters catch only the
missing-key error, so when the `revision` field holds a non-mapping value
(Python None), subscripting it raises a type error that propagates out of
`revert_message`. -/
theorem claim_C1_counterexample :
    revert_message (LogData.obj [("revision", LogData.null)]) = .error PyErr.typeError := rfl

/-! ### Membership characterizations of the button lists -/
theorem mem_page_listing_buttons (p : Page) (pp : PagePerms) (ip : Bool)
    (nu : Option String) (b : WButton) :
    b ∈ page_listing_buttons p pp ip nu ↔
      (pp.can_edit = true ∧ b = editButton p)
      ∨ ((p.has_unpublished_changes && p.is_previewable) = true ∧ b = viewDraftButton p)
      ∨ ((p.live && pyTruthyOptStr p.url) = true ∧ b = viewLiveButton p)
      ∨ (pp.can_add_subpage = true
          ∧ b = (if ip then addChildPageParentButton p else addChildPageButton p))
      ∨ b = moreButton p := by
  unfold page_listing_buttons
  cases h1 : pp.can_edit <;>
    cases h2 : (p.has_unpublished_changes && p.is_previewable) <;>
    cases h3 : (p.live && pyTruthyOptStr p.url) <;>
    cases h4 : pp.can_add_subpage <;>
    simp

theorem mem_page_listing_more_buttons (p : Page) (pp : PagePerms) (ip : Bool)
    (nu : Option String) (b : WButton) :
    b ∈ page_listing_more_buttons p pp ip nu ↔
      (pp.can_move = true ∧ b = moveButton p)
      ∨ (pp.can_copy = true ∧ b = copyButton p nu)
      ∨ (pp.can_delete = true ∧ b = deleteButton p nu)
      ∨ (pp.can_unpublish = true ∧ b = unpublishButton p nu)
      ∨ (pp.can_view_revisions = true ∧ b = revisionsButton p)
      ∨ (pp.can_view_revisions = true ∧ b = historyButton p) := by
  unfold page_listing_more_buttons
  cases h1 : pp.can_move <;>
    cases h2 : pp.can_copy <;>
    cases h3 : pp.can_delete <;>
    cases h4 : pp.can_unpublish <;>
    cases h5 : pp.can_view_revisions <;>
    simp

/-- Claim C2: for every permission state, a listing button is present in
the output of `page_listing_buttons` / `page_listing_more_buttons` if and
only if its visibility predicate returns true (the predicate being the
capability check, or the page-state condition, guarding its yield), and a
registered menu item is rendered iff its `is_shown` predicate returns
true; a false predicate merely omits the item (the generators are total,
so no error is raised). -/
theorem claim_C2 : ∀ (p : Page) (pp : PagePerms) (ip : Bool) (nu : Option String),
    ((∃ b ∈ page_listing_buttons p pp ip nu, b.label = "Edit") ↔ pp.can_edit = true)
    ∧ ((∃ b ∈ page_listing_buttons p pp ip nu, b.label = "View draft")
        ↔ (p.has_unpublished_changes && p.is_previewable) = true)
    ∧ ((∃ b ∈ page_listing_buttons p pp ip nu, b.label = "View live")
        ↔ (p.live && pyTruthyOptStr p.url) = true)
    ∧ ((∃ b ∈ page_listing_buttons p pp ip nu, b.label = "Add child page")
        ↔ pp.can_add_subpage = true)
    ∧ (∃ b ∈ page_listing_buttons p pp ip nu, b.label = "More")
    ∧ ((∃ b ∈ page_listing_more_buttons p pp ip nu, b.label = "Move") ↔ pp.can_move = true)
    ∧ ((∃ b ∈ page_listing_more_buttons p pp ip nu, b.label = "Copy") ↔ pp.can_copy = true)
    ∧ ((∃ b ∈ page_listing_more_buttons p pp ip nu, b.label = "Delete") ↔ pp.can_delete = true)
    ∧ ((∃ b ∈ page_listing_more_buttons p pp ip nu, b.label = "Unpublish")
        ↔ pp.can_unpublish = true)
    ∧ ((∃ b ∈ page_listing_more_buttons p pp ip nu, b.label = "Revisions")
        ↔ pp.can_view_revisions = true)
    ∧ ((∃ b ∈ page_listing_more_buttons p pp ip nu, b.label = "History")
        ↔ pp.can_view_revisions = true)
    ∧ (∀ (items : List AdminMenuItem) (r : AdminRequest) (i : AdminMenuItem),
        i ∈ shownMenuItems items r ↔ i ∈ items ∧ i.is_shown r = true) := by
  intro p pp ip nu
  refine ⟨?_, ?_, ?_, ?_, ?_, ?_, ?_, ?_, ?_, ?_, ?_, ?_⟩
  all_goals try (intro items r i; simp [shownMenuItems, List.mem_filter]; done)
  all_goals
    simp only [mem_page_listing_buttons, mem_page_listing_more_buttons]
  all_goals
    cases ip <;>
      simp [or_and_right, exists_or, and_assoc, editButton, viewDraftButton, viewLiveButton,
        addChildPageParentButton, addChildPageButton, moreButton, moveButton,
        copyButton, deleteButton, unpublishButton, revisionsButton, historyButton]

/-- Claim C9: for every page and permission state (including all-false),
`page_listing_buttons` yields a non-empty sequence whose last element is
the More dropdown button, which carries priority 50 and is yielded
unconditionally. -/
theorem claim_C9 : ∀ (p : Page) (pp : PagePerms) (ip : Bool) (nu : Option String),
    page_listing_buttons p pp ip nu ≠ []
    ∧ (page_listing_buttons p pp ip nu).getLast? = some (moreButton p)
    ∧ (moreButton p).label = "More"
    ∧ (moreButton p).priority = 50
    ∧ (moreButton p).kind = .dropdownFromHook "register_page_listing_more_buttons" := by
  intro p pp ip nu
  have hlast : (page_listing_buttons p pp ip nu).getLast? = some (moreButton p) := by
    unfold page_listing_buttons
    simp
  refine ⟨?_, hlast, rfl, rfl, rfl⟩
  intro hnil
  rw [hnil] at hlast
  simp at hlast

/-- Claim C10: the buttons yielded by `page_listing_buttons` and by
`page_listing_more_buttons` appear in non-decreasing priority order for
every page and permission state. -/
theorem claim_C10 : ∀ (p : Page) (pp : PagePerms) (ip : Bool) (nu : Option String),
    List.Chain' (fun a b => a.priority ≤ b.priority) (page_listing_buttons p pp ip nu)
    ∧ List.Chain' (fun a b => a.priority ≤ b.priority) (page_listing_more_buttons p pp ip nu) := by
  intro p pp ip nu
  constructor
  · unfold page_listing_buttons
    cases h1 : pp.can_edit <;>
      cases h2 : (p.has_unpublished_changes && p.is_previewable) <;>
      cases h3 : (p.live && pyTruthyOptStr p.url) <;>
      cases h4 : pp.can_add_subpage <;>
      cases ip <;>
      simp [editButton, viewDraftButton, viewLiveButton, addChildPageParentButton,
        addChildPageButton, moreButton, List.chain'_cons, List.chain'_singleton]
  · unfold page_listing_more_buttons
    cases h1 : pp.can_move <;>
      cases h2 : pp.can_copy <;>
      cases h3 : pp.can_delete <;>
      cases h4 : pp.can_unpublish <;>
      cases h5 : pp.can_view_revisions <;>
      simp [moveButton, copyButton, deleteButton, unpublishButton, revisionsButton,
        historyButton, List.chain'_cons, List.chain'_singleton]

/-- Claim C8: `append_querystring` returns the path unchanged for an
absent (None) or empty querystring, and returns path ++ "?" ++ q for a
non-empty querystring q. -/
theorem claim_C8 : ∀ (path : String),
    append_querystring path none = path
    ∧ append_querystring path (some "") = path
    ∧ ∀ q : String, q ≠ "" → append_querystring path (some q) = path ++ "?" ++ q := by
  intro path
  refine ⟨?_, ?_, ?_⟩
  · simp [append_querystring, pyTruthyOptStr]
  · have h : "".isEmpty = true := rfl
    simp [append_querystring, pyTruthyOptStr, h]
  · intro q hq
    have h : q.isEmpty = false := by
      cases hIsE : q.isEmpty
      · rfl
      · exact absurd ((String.isEmpty_iff q).mp hIsE) hq
    simp [append_querystring, pyTruthyOptStr, h, String.append_assoc]

/-- Witness for C8 at concrete inputs. -/
theorem claim_C8_witness :
    append_querystring "/admin/pages" (some "next=/x") = "/admin/pages?next=/x" :=
  ((claim_C8 "/admin/pages").2.2 "next=/x" (by decide))

/-- Claim C3: every contentstate feature registered by
`register_core_features` has a from_database_format and a
to_database_format that are inverses where applicable: each internal node
type maps to its storage tag and back to the same internal node type
(17 features: hr, h1-h6, ul, ol, blockquote, bold, italic, link,
superscript, subscript, strikethrough, code). -/
theorem claim_C3 :
    (∀ fr ∈ contentstateRules, ContentstateRule.roundTrips fr.2 = true)
    ∧ contentstateRules.length = 17 := by
  constructor
  · decide
  · decide

/-- Witness for C3 at a concrete rule: the bold feature round-trips
(BOLD -> b -> BOLD). -/
theorem claim_C3_witness :
    ContentstateRule.roundTrips
      ⟨[("b", .inlineStyle "BOLD"), ("strong", .inlineStyle "BOLD")], [], [("BOLD", "b")], []⟩
      = true :=
  claim_C3.1 ("bold",
    ⟨[("b", .inlineStyle "BOLD"), ("strong", .inlineStyle "BOLD")], [], [("BOLD", "b")], []⟩)
    (by decide)

/-! ### The link URL-scheme whitelist (claim C4) -/
theorem litMatch_eq_some_iff (l s r : List Char) :
    litMatch l s = some r ↔ s = l ++ r := by
  induction l generalizing s with
  | nil => simp [litMatch]
  | cons c cs ih =>
    cases s with
    | nil => simp [litMatch]
    | cons d ds =>
      by_cases h : c = d
      · subst h
        simp [litMatch, ih]
      · simp only [litMatch, if_neg h, List.cons_append, List.cons.injEq]
        constructor
        · intro hh
          exact absurd hh (by simp)
        · intro hh
          exact absurd hh.1.symm h

theorem rx_alt_accepts_plain_iff (lit s : List Char) :
    RxAlternative.accepts ⟨lit, false⟩ s = true ↔ ∃ r, s = lit ++ r := by
  constructor
  · intro h
    cases hm : litMatch lit s with
    | none => simp [RxAlternative.accepts, hm] at h
    | some rest => exact ⟨rest, (litMatch_eq_some_iff lit s rest).mp hm⟩
  · rintro ⟨r, rfl⟩
    have hm : litMatch lit (lit ++ r) = some r := (litMatch_eq_some_iff _ _ _).mpr rfl
    simp [RxAlternative.accepts, hm]

theorem rx_alt_accepts_anchored_iff (lit s : List Char) :
    RxAlternative.accepts ⟨lit, true⟩ s = true ↔ s = lit := by
  constructor
  · intro h
    cases hm : litMatch lit s with
    | none => simp [RxAlternative.accepts, hm] at h
    | some rest =>
      simp only [RxAlternative.accepts, hm, Bool.not_true, Bool.false_or] at h
      have hrest : rest = [] := by simpa using h
      have := (litMatch_eq_some_iff lit s rest).mp hm
      rw [this, hrest, List.append_nil]
  · rintro rfl
    have hm : litMatch s s = some [] := (litMatch_eq_some_iff _ _ _).mpr (by simp)
    simp [RxAlternative.accepts, hm]

theorem string_eq_iff_data_eq (a b : String) : a.data = b.data ↔ a = b := by
  constructor
  · intro h
    cases a with
    | mk da =>
      cases b with
      | mk db =>
        exact congrArg String.mk h
  · intro h
    rw [h]

/-- Claim C4: the draftail link feature whitelists the href attribute by
the pattern `^(http:|https:|undefined$)`, which accepts a string iff it
starts with `http:` or `https:` or equals `undefined`; the registered
draftail link feature subjects href to exactly this pattern, and the
editorhtml link converter rule subjects the `a` element's href attribute
to the `check_url` rule. -/
theorem claim_C4 :
    (∀ s : String, RxAnchoredAlternation.accepts hrefWhitelistPattern s = true ↔
      ((∃ r, s.data = "http:".data ++ r) ∨ (∃ r, s.data = "https:".data ++ r)
        ∨ s = "undefined"))
    ∧ ("draftail", "link", linkEntityFeature)
        ∈ (register_core_features emptyFeatureRegistry).editorPlugins
    ∧ ("editorhtml", "link", ConverterRule.editorhtml
        [.whitelistRule "a" (.attribute_rule [("href", AttrCheck.check_url)]),
         .linkTypeRule "page" "PageLinkHandler"])
        ∈ (register_core_features emptyFeatureRegistry).converterRules := by
  refine ⟨?_, by decide, by decide⟩
  intro s
  show (RxAnchoredAlternation.alternatives hrefWhitelistPattern).any
      (fun a => a.accepts s.data) = true ↔ _
  simp only [hrefWhitelistPattern, List.any_cons, List.any_nil, Bool.or_false,
    Bool.or_eq_true]
  rw [rx_alt_accepts_plain_iff, rx_alt_accepts_plain_iff, rx_alt_accepts_anchored_iff]
  have hu : s.data = "undefined".data ↔ s = "undefined" :=
    string_eq_iff_data_eq s "undefined"
  rw [show (['u', 'n', 'd', 'e', 'f', 'i', 'n', 'e', 'd'] : List Char)
      = String.data "undefined" from rfl, hu]

/-- Claim C7 (amended): bold, italic, h1-h6, ol, ul, link and hr each get
an editor plugin and a converter rule for both backends (hallo with
editorhtml, draftail with contentstate); superscript, subscript,
strikethrough and code are registered for the draftail backend (with
contentstate rules) only, with no hallo plugin and no editorhtml rule. -/
theorem claim_C7 :
    (∀ f ∈ ["bold", "italic", "h1", "h2", "h3", "h4", "h5", "h6", "ol", "ul", "link", "hr"],
      ("hallo", f) ∈ registeredEditorPluginKeys
      ∧ ("editorhtml", f) ∈ registeredConverterRuleKeys
      ∧ ("draftail", f) ∈ registeredEditorPluginKeys
      ∧ ("contentstate", f) ∈ registeredConverterRuleKeys)
    ∧ (∀ f ∈ ["superscript", "subscript", "strikethrough", "code"],
      ("draftail", f) ∈ registeredEditorPluginKeys
      ∧ ("contentstate", f) ∈ registeredConverterRuleKeys
      ∧ ("hallo", f) ∉ registeredEditorPluginKeys
      ∧ ("editorhtml", f) ∉ registeredConverterRuleKeys) := by
  constructor
  · decide
  · decide

/-- Witness for C7 at a concrete feature: bold is registered for both
backends with both converter rules. -/
theorem claim_C7_witness :
    ("hallo", "bold") ∈ registeredEditorPluginKeys
    ∧ ("editorhtml", "bold") ∈ registeredConverterRuleKeys
    ∧ ("draftail", "bold") ∈ registeredEditorPluginKeys
    ∧ ("contentstate", "bold") ∈ registeredConverterRuleKeys :=
  claim_C7.1 "bold" (by decide)

/-- Counterexample for C7 as stated: the superscript feature (and
likewise subscript, strikethrough, code) has no hallo editor plugin and
no editorhtml converter rule. -/
theorem claim_C7_counterexample :
    ("hallo", "superscript") ∉ registeredEditorPluginKeys
    ∧ ("editorhtml", "superscript") ∉ registeredConverterRuleKeys := by
  constructor
  · decide
  · decide

/-- Claim C5: the 18 'wagtail.*' codes of `register_core_log_actions`
and the 3 'wagtail.workflow.*' codes of `register_workflow_log_actions`
are globally unique: no action code is registered twice. -/
theorem claim_C5 :
    registeredLogActionCodes.Nodup
    ∧ ((register_core_log_actions []).map LogAction.code).length = 18
    ∧ (∀ c ∈ (register_core_log_actions []).map LogAction.code,
        "wagtail.".data.isPrefixOf c.data = true)
    ∧ ((register_workflow_log_actions []).map LogAction.code).length = 3
    ∧ (∀ c ∈ (register_workflow_log_actions []).map LogAction.code,
        "wagtail.workflow.".data.isPrefixOf c.data = true) := by
  refine ⟨by decide, by decide, by decide, by decide, by decide⟩

/-- Witness for C5 at a concrete code. -/
theorem claim_C5_witness :
    "wagtail.workflow.".data.isPrefixOf "wagtail.workflow.start".data = true :=
  claim_C5.2.2.2.2 "wagtail.workflow.start" (by decide)

/-- Claim C6: the icon list produced by `register_icons` (from an empty
registry) has no duplicate entries, and every entry it contributes is
exactly the static path template 'wagtailadmin/icons/' followed by the
icon file name. -/
theorem claim_C6 :
    (register_icons []).Nodup
    ∧ (∀ p ∈ register_icons [], ∃ icon ∈ coreIconNames, p = "wagtailadmin/icons/" ++ icon)
    ∧ register_icons [] = coreIconNames.map (fun icon => "wagtailadmin/icons/" ++ icon) := by
  refine ⟨by decide, ?_, rfl⟩
  intro p hp
  simp only [register_icons, List.nil_append, List.mem_map] at hp
  obtain ⟨icon, hmem, rfl⟩ := hp
  exact ⟨icon, hmem, rfl⟩

/-- Witness for C6 at a concrete entry. -/
theorem claim_C6_witness :
    ∃ icon ∈ coreIconNames, "wagtailadmin/icons/wagtail.svg" = "wagtailadmin/icons/" ++ icon :=
  claim_C6.2.1 "wagtailadmin/icons/wagtail.svg" (by decide)

end WagtailAdminHooks
